import Mathlib

/-!
Verification of the sync primitives: the adaptive mutex (sync.mutex, Go sync.Mutex,
a packed int32 state word manipulated by atomic CAS/add) and the typed atomic cell
(sync.atomic, Go sync/atomic.Value, a typ word and a data word).

The packed state word is modelled as a natural number; the Go int32 is non-negative
in every live state, and the one place where two's-complement wraparound matters
(the add of -mutexLocked in Unlock on an unlocked mutex) is modelled explicitly
mod 2^32.  Operations are embedded as functions that also return the trace of
primitive events (atomic ops, semaphore acquire/release) they execute, under
sequential semantics: a CAS against the state the function observed succeeds.
-/

namespace GoSync

/-- Bit constant of the packed state word: mutex is locked (source const block). -/
def mutexLocked : Nat := 1

/-- Bit constant: a spinning waiter has claimed the wake responsibility. -/
def mutexWoken : Nat := 2

/-- Bit constant: the mutex is in starvation mode. -/
def mutexStarving : Nat := 4

/-- Number of low bits before the waiter count starts. -/
def mutexWaiterShift : Nat := 3

/-- Width of the state word: the Go field is an int32, two's complement mod 2^32. -/
def two32 : Nat := 4294967296

/-- Wake primitive invocations performed by Unlock via runtime_Semrelease:
handoff = true is the starvation-mode direct hand-off to the queue head. -/
inductive WakeAction where
  | noWake
  | wakeOne (handoff : Bool)
  deriving DecidableEq

/-- Primitive operations on the mutex, in the order the code executes them. -/
inductive MutexEvent where
  | cas (old new : Nat) (ok : Bool)
  | add (delta : Int) (result : Nat)
  | semacquire (lifo : Bool)
  | semrelease (handoff : Bool)
  deriving DecidableEq

/-- Go's &^ operator (AND NOT, bit clear): clear in x the bits set in y.
Since x &&& y is a submask of x, subtracting it clears exactly those bits. -/
def andNot (x y : Nat) : Nat := x - (x &&& y)

/-- Fast path of Lock (line 93): a single CAS of the state from 0 to mutexLocked.
Under sequential semantics it succeeds exactly when the observed state is 0. -/
def lockFast (s : Nat) : Option Nat :=
  if s = 0 then some mutexLocked else none

/-- Candidate next state computed by Lock's slow path from the observed state
`old` (lines 135-160), parameterised by the caller's local flags `starving` and
`awoke`.  Returns none when the code throws "sync: inconsistent mutex state"
(awoke is set but the woken bit is not). -/
def lockSlowNew (old : Nat) (starving awoke : Bool) : Option Nat :=
  let n1 := if old &&& mutexStarving = 0 then old ||| mutexLocked else old
  let n2 := if old &&& (mutexLocked ||| mutexStarving) ≠ 0 then n1 + (1 <<< mutexWaiterShift) else n1
  let n3 := if starving = true ∧ old &&& mutexLocked ≠ 0 then n2 ||| mutexStarving else n2
  if awoke = true then
    if n3 &&& mutexWoken = 0 then none
    else some (andNot n3 mutexWoken)
  else some n3

/-- Outcome of one round of Lock's slow path. -/
inductive LockRoundOutcome where
  | acquired (state : Nat)
  | parked (state : Nat)
  | fatal (msg : String)
  deriving DecidableEq

/-- One round of Lock's slow path in which the CAS at line 163 succeeds against
the observed state `old`: compute `new`, CAS, then either return holding the lock
(old had neither the locked nor the starving bit, line 166) or park on the
semaphore (line 177, queueLifo = lifo). -/
def lockRound (old : Nat) (starving awoke lifo : Bool) : LockRoundOutcome × List MutexEvent :=
  match lockSlowNew old starving awoke with
  | none => (.fatal "sync: inconsistent mutex state", [])
  | some new =>
    if old &&& (mutexLocked ||| mutexStarving) = 0 then
      (.acquired new, [.cas old new true])
    else
      (.parked new, [.cas old new true, .semacquire lifo])

/-- Delta applied by the woken waiter's hand-off repair (lines 190-198):
mutexLocked - 1<<mutexWaiterShift, and additionally -mutexStarving when the
waiter is not itself starving or it is the last queued waiter. -/
def handoffDelta (starving : Bool) (old : Nat) : Int :=
  let delta : Int := (mutexLocked : Int) - ((1 <<< mutexWaiterShift : Nat) : Int)
  if starving = false ∨ old >>> mutexWaiterShift = 1 then delta - (mutexStarving : Int) else delta

/-- State repair performed by a waiter that wakes and observes mutexStarving set
(lines 182-200): ownership was handed off with the locked bit left clear.  The
waiter checks consistency (locked and woken must be clear and at least one waiter
accounted; otherwise throw, modelled as none) and then applies a single atomic
add of handoffDelta. -/
def handoffRepair (old : Nat) (starving : Bool) : Option Nat :=
  if old &&& (mutexLocked ||| mutexWoken) ≠ 0 ∨ old >>> mutexWaiterShift = 0 then none
  else some ((old : Int) + handoffDelta starving old).toNat

/-- Result of Unlock: fatal throw or the final state word. -/
inductive UnlockOutcome where
  | fatal (msg : String)
  | done (state : Nat)
  deriving DecidableEq

/-- Body of Unlock's normal-mode loop (lines 237-259) under sequential semantics
(the CAS succeeds against the observed state `old`): if there are no waiters or
any of the locked, woken or starving bits is set, do nothing; otherwise grab the
right to wake someone: CAS in a state with one fewer waiter and the woken bit
set, then release exactly one waiter (handoff = false). -/
def unlockSlow (old : Nat) : Nat × List MutexEvent :=
  if old >>> mutexWaiterShift = 0 ∨ old &&& (mutexLocked ||| mutexWoken ||| mutexStarving) ≠ 0 then
    (old, [])
  else
    ((old - (1 <<< mutexWaiterShift)) ||| mutexWoken,
      [.cas old ((old - (1 <<< mutexWaiterShift)) ||| mutexWoken) true, .semrelease false])

/-- Unlock (lines 220-270): atomic add of -mutexLocked on the int32 state word
(modelled mod 2^32), throw "sync: unlock of unlocked mutex" if the locked bit was
not set, then either the normal-mode wake loop or, in starvation mode, a direct
hand-off release with no further state change. -/
def UnlockRun (s : Nat) : UnlockOutcome × List MutexEvent :=
  let new := (s + (two32 - mutexLocked)) % two32
  if ((new + mutexLocked) % two32) &&& mutexLocked = 0 then
    (.fatal "sync: unlock of unlocked mutex", [.add (-(mutexLocked : Int)) new])
  else if new &&& mutexStarving = 0 then
    (.done (unlockSlow new).1, .add (-(mutexLocked : Int)) new :: (unlockSlow new).2)
  else
    (.done new, [.add (-(mutexLocked : Int)) new, .semrelease true])

/-- Every atomic mutation of the state word performed by Lock/Unlock, with the
guards under which the source performs it.  A failed CAS does not change the
word, and a path that throws halts the process, so neither yields a step.  The
guarded adds of Lock's queueing and the unlock decrement are written in exact
Nat arithmetic, faithful to the int32 word below the overflow limit. -/
inductive MutexStep : Nat → Nat → Prop where
  | fastLock : MutexStep 0 mutexLocked
  | spinWoken (s : Nat) :
      s &&& (mutexLocked ||| mutexStarving) = mutexLocked →
      s &&& mutexWoken = 0 →
      s >>> mutexWaiterShift ≠ 0 →
      MutexStep s (s ||| mutexWoken)
  | slowCAS (s n : Nat) (stv awk : Bool) :
      lockSlowNew s stv awk = some n →
      MutexStep s n
  | handoff (s n : Nat) (stv : Bool) :
      s &&& mutexStarving ≠ 0 →
      handoffRepair s stv = some n →
      MutexStep s n
  | unlockClear (s : Nat) :
      s &&& mutexLocked ≠ 0 →
      MutexStep s (s - mutexLocked)
  | unlockWake (s : Nat) :
      s &&& mutexLocked = 0 →
      s &&& mutexStarving = 0 →
      s >>> mutexWaiterShift ≠ 0 →
      s &&& (mutexLocked ||| mutexWoken ||| mutexStarving) = 0 →
      MutexStep s ((s - (1 <<< mutexWaiterShift)) ||| mutexWoken)

/-- States of the packed word reachable from the zero (fresh) mutex. -/
def Reachable (s : Nat) : Prop := Relation.ReflTransGen MutexStep 0 s

/-- Value of the typ word of an ifaceWords (an unsafe.Pointer): Go nil, the
reserved all-bits-set marker ^uintptr(0) claimed during a first store, or a real
type pointer. -/
inductive TypePtr where
  | nil
  | allOnes
  | ptr (addr : Nat)
  deriving DecidableEq

/-- ifaceWords: the two-word internal representation of an interface value. -/
structure IfaceWords where
  typ : TypePtr
  data : Nat
  deriving DecidableEq

/-- atomic.Value: one interface value updated word by word. -/
structure AtomicValue where
  typ : TypePtr
  data : Nat
  deriving DecidableEq

/-- The zero Value: both words zero, Load returns nil. -/
def zeroValue : AtomicValue := ⟨TypePtr.nil, 0⟩

/-- Primitive operations on the cell, in the order the code executes them.
park is the blocking primitive; it is in the vocabulary precisely so that
"Load and Store never park" is a statement about their traces. -/
inductive CellEvent where
  | loadTyp (t : TypePtr)
  | loadData (d : Nat)
  | casTyp (old new : TypePtr) (ok : Bool)
  | storeTyp (t : TypePtr)
  | storeData (d : Nat)
  | procPin
  | procUnpin
  | park
  deriving DecidableEq

/-- Events that mutate a word of the cell. -/
def CellEvent.isWrite : CellEvent → Bool
  | .casTyp _ _ ok => ok
  | .storeTyp _ => true
  | .storeData _ => true
  | _ => false

/-- Load (sync.atomic lines 36-53): atomically read the typ word; nil or the
all-ones marker means no first store has completed, return nil; otherwise
atomically read the data word and return the (typ, data) pair. -/
def LoadRun (v : AtomicValue) : Option IfaceWords × List CellEvent :=
  if v.typ = TypePtr.nil ∨ v.typ = TypePtr.allOnes then
    (none, [CellEvent.loadTyp v.typ])
  else
    (some ⟨v.typ, v.data⟩, [CellEvent.loadTyp v.typ, CellEvent.loadData v.data])

/-- Outcome of Store.  stuck: the observed typ word is the in-progress marker,
so the loop spins waiting for a concurrent first store to finish; this state is
transient and never observed from a quiescent cell. -/
inductive StoreOutcome where
  | ok
  | panicNil
  | panicType
  | stuck
  deriving DecidableEq

/-- Store (sync.atomic lines 58-107) under sequential semantics (the CAS of the
first-store branch succeeds against the observed typ).  Returns the outcome, the
cell after the call, and the trace of primitive events.  The nil check precedes
the loop; the typ word is read first in every iteration; a first store claims
the word with a CAS to the all-ones marker, then stores data before typ; a later
store checks the typ and stores only the data word. -/
def StoreRun (v : AtomicValue) (x : IfaceWords) : StoreOutcome × AtomicValue × List CellEvent :=
  if x.typ = TypePtr.nil then (.panicNil, v, [])
  else
    match v.typ with
    | TypePtr.nil =>
        (.ok, ⟨x.typ, x.data⟩,
          [.loadTyp TypePtr.nil, .procPin, .casTyp TypePtr.nil TypePtr.allOnes true,
            .storeData x.data, .storeTyp x.typ, .procUnpin])
    | TypePtr.allOnes => (.stuck, v, [.loadTyp TypePtr.allOnes])
    | TypePtr.ptr t =>
        if TypePtr.ptr t ≠ x.typ then (.panicType, v, [.loadTyp (TypePtr.ptr t)])
        else (.ok, ⟨TypePtr.ptr t, x.data⟩, [.loadTyp (TypePtr.ptr t), .storeData x.data])

end GoSync

namespace GoSync

/-! ## Arithmetic characterisation of the bit operations on the packed word

The packed word is manipulated with `&&&`, `|||`, `>>>`, `andNot` and adds.
The lemmas below rewrite each of these (for the concrete masks of the mutex)
into `/`, `%` and `+`/`-` form, after which `omega` can reason about them. -/

theorem shl3 : (1 <<< 3 : Nat) = 8 := rfl

theorem shr3_eq (s : Nat) : s >>> 3 = s / 8 := by
  rw [Nat.shiftRight_eq_div_pow]

theorem lor_one_four : (1 ||| 4 : Nat) = 5 := rfl

theorem lor_one_two_four : (1 ||| 2 ||| 4 : Nat) = 7 := rfl

theorem lor_one_two : (1 ||| 2 : Nat) = 3 := rfl

theorem testBit_mod_eight (s i : Nat) : (s % 8).testBit i = (decide (i < 3) && s.testBit i) := by
  have h := Nat.testBit_mod_two_pow s 3 i
  simpa using h

theorem testBit_div_eight (s i : Nat) : (s / 8).testBit i = s.testBit (3 + i) := by
  have h1 : s / 8 = s >>> 3 := (shr3_eq s).symm
  rw [h1, Nat.testBit_shiftRight]

theorem testBit_eight_mul_add (a b j : Nat) (hb : b < 8) :
    (8 * a + b).testBit j = if j < 3 then b.testBit j else a.testBit (j - 3) := by
  have hb2 : b < 2 ^ 3 := by simpa using hb
  have h := Nat.testBit_mul_pow_two_add a hb2 j
  simpa using h

theorem and_mask_low (s m : Nat) (hm : m < 8) : s &&& m = s % 8 &&& m := by
  apply Nat.eq_of_testBit_eq
  intro j
  simp only [Nat.testBit_and, testBit_mod_eight]
  rcases Nat.lt_or_ge j 3 with hj | hj
  · simp [hj]
  · have h2 : (8 : Nat) ≤ 2 ^ j := by
      calc (8 : Nat) = 2 ^ 3 := by norm_num
        _ ≤ 2 ^ j := Nat.pow_le_pow_right (by norm_num) hj
    have hmj : m.testBit j = false := Nat.testBit_lt_two_pow (lt_of_lt_of_le hm h2)
    simp [hmj, Nat.not_lt.mpr hj]

theorem or_low (s m : Nat) (hm : m < 8) : s ||| m = 8 * (s / 8) + (s % 8 ||| m) := by
  have h1 : s % 8 < 8 := Nat.mod_lt s (by norm_num)
  have horlt : s % 8 ||| m < 8 := by
    have h2 : s % 8 < 2 ^ 3 := by simpa using h1
    have h3 : m < 2 ^ 3 := by simpa using hm
    simpa using Nat.or_lt_two_pow h2 h3
  apply Nat.eq_of_testBit_eq
  intro j
  rw [testBit_eight_mul_add _ _ _ horlt]
  rcases Nat.lt_or_ge j 3 with hj | hj
  · simp [hj, Nat.testBit_or, testBit_mod_eight]
  · have h2 : (8 : Nat) ≤ 2 ^ j := by
      calc (8 : Nat) = 2 ^ 3 := by norm_num
        _ ≤ 2 ^ j := Nat.pow_le_pow_right (by norm_num) hj
    have hmj : m.testBit j = false := Nat.testBit_lt_two_pow (lt_of_lt_of_le hm h2)
    have hdiv : (s / 8).testBit (j - 3) = s.testBit j := by
      rw [testBit_div_eight]
      congr 1
      omega
    simp [Nat.not_lt.mpr hj, Nat.testBit_or, hmj, hdiv]

theorem and_one_eq (s : Nat) : s &&& 1 = s % 2 := by
  simp

theorem and_three_eq (s : Nat) : s &&& 3 = s % 4 := by
  have h := Nat.and_pow_two_sub_one_eq_mod s 2
  simpa using h

theorem and_seven_eq (s : Nat) : s &&& 7 = s % 8 := by
  have h := Nat.and_pow_two_sub_one_eq_mod s 3
  simpa using h

theorem and_two_eq (s : Nat) : s &&& 2 = 2 * (s / 2 % 2) := by
  have h1 := and_mask_low s 2 (by norm_num)
  have h2 : ∀ b : Nat, b < 8 → b &&& 2 = 2 * (b / 2 % 2) := by decide
  have h3 := h2 (s % 8) (Nat.mod_lt s (by norm_num))
  omega

theorem and_four_eq (s : Nat) : s &&& 4 = 4 * (s / 4 % 2) := by
  have h1 := and_mask_low s 4 (by norm_num)
  have h2 : ∀ b : Nat, b < 8 → b &&& 4 = 4 * (b / 4 % 2) := by decide
  have h3 := h2 (s % 8) (Nat.mod_lt s (by norm_num))
  omega

theorem and_five_eq (s : Nat) : s &&& 5 = s % 2 + 4 * (s / 4 % 2) := by
  have h1 := and_mask_low s 5 (by norm_num)
  have h2 : ∀ b : Nat, b < 8 → b &&& 5 = b % 2 + 4 * (b / 4 % 2) := by decide
  have h3 := h2 (s % 8) (Nat.mod_lt s (by norm_num))
  omega

theorem or_one_eq (s : Nat) : s ||| 1 = s + (1 - s % 2) := by
  have h1 := or_low s 1 (by norm_num)
  have h2 : ∀ b : Nat, b < 8 → b ||| 1 = b + (1 - b % 2) := by decide
  have h3 := h2 (s % 8) (Nat.mod_lt s (by norm_num))
  omega

theorem or_two_eq (s : Nat) : s ||| 2 = s + 2 * (1 - s / 2 % 2) := by
  have h1 := or_low s 2 (by norm_num)
  have h2 : ∀ b : Nat, b < 8 → b ||| 2 = b + 2 * (1 - b / 2 % 2) := by decide
  have h3 := h2 (s % 8) (Nat.mod_lt s (by norm_num))
  omega

theorem or_four_eq (s : Nat) : s ||| 4 = s + 4 * (1 - s / 4 % 2) := by
  have h1 := or_low s 4 (by norm_num)
  have h2 : ∀ b : Nat, b < 8 → b ||| 4 = b + 4 * (1 - b / 4 % 2) := by decide
  have h3 := h2 (s % 8) (Nat.mod_lt s (by norm_num))
  omega

theorem andNot_two_eq (s : Nat) : andNot s 2 = s - 2 * (s / 2 % 2) := by
  unfold andNot
  rw [and_two_eq]

end GoSync

namespace GoSync

/-! ## Characterisation of the Lock slow-path state computation -/

set_option maxHeartbeats 1000000 in
theorem lockSlowNew_none_iff (old : Nat) (stv awk : Bool) :
    lockSlowNew old stv awk = none ↔ (awk = true ∧ old &&& mutexWoken = 0) := by
  cases awk <;> cases stv <;>
    simp only [lockSlowNew, mutexLocked, mutexWoken, mutexStarving, mutexWaiterShift, shl3,
      lor_one_four] <;>
    split_ifs <;>
    simp only [and_one_eq, and_two_eq, and_four_eq, and_five_eq, or_one_eq, or_two_eq,
      or_four_eq, andNot_two_eq, shr3_eq] at * <;>
    (try simp only [eq_self_iff_true, Bool.false_eq_true, true_and, and_true, false_and,
      and_false, true_or, or_true, false_or, or_false, not_true, not_false_iff, iff_true,
      iff_false, true_iff, false_iff, Option.some.injEq, reduceCtorEq] at *) <;>
    omega

set_option maxHeartbeats 1000000 in
theorem lockSlowNew_locked_iff (old n : Nat) (stv awk : Bool)
    (h : lockSlowNew old stv awk = some n) :
    n &&& mutexLocked ≠ 0 ↔ (old &&& mutexStarving = 0 ∨ old &&& mutexLocked ≠ 0) := by
  cases awk <;> cases stv <;>
    simp only [lockSlowNew, mutexLocked, mutexWoken, mutexStarving, mutexWaiterShift, shl3,
      lor_one_four] at h ⊢ <;>
    split_ifs at h <;>
    simp only [Option.some.injEq, reduceCtorEq] at h <;>
    simp only [and_one_eq, and_two_eq, and_four_eq, and_five_eq, or_one_eq, or_two_eq,
      or_four_eq, andNot_two_eq, shr3_eq] at * <;>
    (try simp only [eq_self_iff_true, Bool.false_eq_true, true_and, and_true, false_and,
      and_false, true_or, or_true, false_or, or_false, not_true, not_false_iff, iff_true,
      iff_false, true_iff, false_iff] at *) <;>
    omega

set_option maxHeartbeats 1000000 in
theorem lockSlowNew_waiters (old n : Nat) (stv awk : Bool)
    (h : lockSlowNew old stv awk = some n) :
    n >>> mutexWaiterShift =
      old >>> mutexWaiterShift + (if old &&& (mutexLocked ||| mutexStarving) ≠ 0 then 1 else 0) := by
  cases awk <;> cases stv <;>
    simp only [lockSlowNew, mutexLocked, mutexWoken, mutexStarving, mutexWaiterShift, shl3,
      lor_one_four] at h ⊢ <;>
    split_ifs at h ⊢ <;>
    simp only [Option.some.injEq, reduceCtorEq] at h <;>
    simp only [and_one_eq, and_two_eq, and_four_eq, and_five_eq, or_one_eq, or_two_eq,
      or_four_eq, andNot_two_eq, shr3_eq] at * <;>
    (try simp only [eq_self_iff_true, Bool.false_eq_true, true_and, and_true, false_and,
      and_false, true_or, or_true, false_or, or_false, not_true, not_false_iff, iff_true,
      iff_false, true_iff, false_iff] at *) <;>
    omega

set_option maxHeartbeats 1000000 in
theorem lockSlowNew_starving_iff (old n : Nat) (stv awk : Bool)
    (h : lockSlowNew old stv awk = some n) :
    n &&& mutexStarving ≠ 0 ↔
      (old &&& mutexStarving ≠ 0 ∨ (stv = true ∧ old &&& mutexLocked ≠ 0)) := by
  cases awk <;> cases stv <;>
    simp only [lockSlowNew, mutexLocked, mutexWoken, mutexStarving, mutexWaiterShift, shl3,
      lor_one_four] at h ⊢ <;>
    split_ifs at h <;>
    simp only [Option.some.injEq, reduceCtorEq] at h <;>
    simp only [and_one_eq, and_two_eq, and_four_eq, and_five_eq, or_one_eq, or_two_eq,
      or_four_eq, andNot_two_eq, shr3_eq] at * <;>
    (try simp only [eq_self_iff_true, Bool.false_eq_true, true_and, and_true, false_and,
      and_false, true_or, or_true, false_or, or_false, not_true, not_false_iff, iff_true,
      iff_false, true_iff, false_iff] at *) <;>
    omega

set_option maxHeartbeats 1000000 in
theorem lockSlowNew_woken (old n : Nat) (stv awk : Bool)
    (h : lockSlowNew old stv awk = some n) :
    n &&& mutexWoken = (if awk = true then 0 else old &&& mutexWoken) := by
  cases awk <;> cases stv <;>
    simp only [lockSlowNew, mutexLocked, mutexWoken, mutexStarving, mutexWaiterShift, shl3,
      lor_one_four] at h ⊢ <;>
    split_ifs at h ⊢ <;>
    simp only [Option.some.injEq, reduceCtorEq] at h <;>
    simp only [and_one_eq, and_two_eq, and_four_eq, and_five_eq, or_one_eq, or_two_eq,
      or_four_eq, andNot_two_eq, shr3_eq] at * <;>
    (try simp only [eq_self_iff_true, Bool.false_eq_true, true_and, and_true, false_and,
      and_false, true_or, or_true, false_or, or_false, not_true, not_false_iff, iff_true,
      iff_false, true_iff, false_iff] at *) <;>
    omega

end GoSync

namespace GoSync

/-! ## Characterisation of the hand-off repair and of Unlock -/

theorem handoffRepair_none_iff (old : Nat) (stv : Bool) :
    handoffRepair old stv = none ↔
      (old &&& (mutexLocked ||| mutexWoken) ≠ 0 ∨ old >>> mutexWaiterShift = 0) := by
  unfold handoffRepair
  split_ifs with h
  · simp [h]
  · simp [h]

set_option maxHeartbeats 1000000 in
theorem handoffRepair_some_fields (old n : Nat) (stv : Bool)
    (hstv : old &&& mutexStarving ≠ 0)
    (h : handoffRepair old stv = some n) :
    n &&& mutexLocked ≠ 0 ∧ n &&& mutexWoken = 0 ∧
      n >>> mutexWaiterShift = old >>> mutexWaiterShift - 1 ∧
      (n &&& mutexStarving = 0 ↔ (stv = false ∨ old >>> mutexWaiterShift = 1)) := by
  cases stv <;>
    simp only [handoffRepair, handoffDelta, mutexLocked, mutexWoken, mutexStarving,
      mutexWaiterShift, shl3, lor_one_two] at * <;>
    split_ifs at h ⊢ <;>
    simp only [Option.some.injEq, reduceCtorEq] at h <;>
    simp only [and_one_eq, and_two_eq, and_three_eq, and_four_eq, shr3_eq] at * <;>
    (try simp only [eq_self_iff_true, Bool.false_eq_true, Bool.true_eq_false, true_and,
      and_true, false_and, and_false, true_or, or_true, false_or, or_false, not_true,
      not_false_iff, iff_true, iff_false, true_iff, false_iff] at *) <;>
    omega

theorem unlockSlow_noWake (old : Nat)
    (h : old >>> mutexWaiterShift = 0 ∨
      old &&& (mutexLocked ||| mutexWoken ||| mutexStarving) ≠ 0) :
    unlockSlow old = (old, []) := by
  unfold unlockSlow
  rw [if_pos h]

theorem unlockSlow_wake (old : Nat)
    (h1 : old >>> mutexWaiterShift ≠ 0)
    (h2 : old &&& (mutexLocked ||| mutexWoken ||| mutexStarving) = 0) :
    unlockSlow old = ((old - (1 <<< mutexWaiterShift)) ||| mutexWoken,
      [.cas old ((old - (1 <<< mutexWaiterShift)) ||| mutexWoken) true, .semrelease false]) := by
  unfold unlockSlow
  rw [if_neg]
  push_neg
  exact ⟨h1, h2⟩

theorem unlockSlow_wake_fields (old : Nat)
    (h1 : old >>> mutexWaiterShift ≠ 0)
    (h2 : old &&& (mutexLocked ||| mutexWoken ||| mutexStarving) = 0) :
    ((old - (1 <<< mutexWaiterShift)) ||| mutexWoken) &&& mutexWoken ≠ 0 ∧
    ((old - (1 <<< mutexWaiterShift)) ||| mutexWoken) &&& mutexLocked = 0 ∧
    ((old - (1 <<< mutexWaiterShift)) ||| mutexWoken) &&& mutexStarving = 0 ∧
    ((old - (1 <<< mutexWaiterShift)) ||| mutexWoken) >>> mutexWaiterShift =
      old >>> mutexWaiterShift - 1 := by
  simp only [mutexLocked, mutexWoken, mutexStarving, mutexWaiterShift, shl3,
    lor_one_two_four] at *
  simp only [and_one_eq, and_two_eq, and_four_eq, and_seven_eq, or_two_eq, shr3_eq] at *
  omega

theorem unlock_new_eq (s : Nat) (hs : s < two32) (hl : s &&& mutexLocked ≠ 0) :
    (s + (two32 - mutexLocked)) % two32 = s - 1 := by
  simp only [two32, mutexLocked, and_one_eq] at *
  omega

theorem sub_one_fields (s : Nat) (hl : s &&& mutexLocked ≠ 0) :
    (s - 1) &&& mutexLocked = 0 ∧ (s - 1) &&& mutexWoken = s &&& mutexWoken ∧
      (s - 1) &&& mutexStarving = s &&& mutexStarving ∧
      (s - 1) >>> mutexWaiterShift = s >>> mutexWaiterShift := by
  simp only [mutexLocked, mutexWoken, mutexStarving, mutexWaiterShift, and_one_eq, and_two_eq,
    and_four_eq, shr3_eq] at *
  omega

set_option maxHeartbeats 1000000 in
theorem unlockRun_fatal_iff (s : Nat) (hs : s < two32) :
    (UnlockRun s).1 = UnlockOutcome.fatal "sync: unlock of unlocked mutex" ↔
      s &&& mutexLocked = 0 := by
  simp only [UnlockRun, two32, mutexLocked, mutexStarving] at *
  split_ifs with h1 h2 <;>
    simp only [and_one_eq, and_four_eq] at * <;>
    simp <;>
    omega

theorem unlockRun_starving (s : Nat) (hs : s < two32) (hl : s &&& mutexLocked ≠ 0)
    (hst : s &&& mutexStarving ≠ 0) :
    UnlockRun s = (UnlockOutcome.done (s - 1),
      [MutexEvent.add (-(mutexLocked : Int)) (s - 1), MutexEvent.semrelease true]) := by
  have hnew := unlock_new_eq s hs hl
  simp only [UnlockRun, hnew]
  split_ifs with h1 h2
  · exfalso
    simp only [two32, mutexLocked, and_one_eq] at *
    omega
  · exfalso
    simp only [mutexLocked, mutexStarving, and_one_eq, and_four_eq] at *
    omega
  · rfl

theorem unlockRun_normal (s : Nat) (hs : s < two32) (hl : s &&& mutexLocked ≠ 0)
    (hst : s &&& mutexStarving = 0) :
    UnlockRun s = (UnlockOutcome.done (unlockSlow (s - 1)).1,
      MutexEvent.add (-(mutexLocked : Int)) (s - 1) :: (unlockSlow (s - 1)).2) := by
  have hnew := unlock_new_eq s hs hl
  simp only [UnlockRun, hnew]
  split_ifs with h1 h2
  · exfalso
    simp only [two32, mutexLocked, and_one_eq] at *
    omega
  · rfl
  · exfalso
    simp only [mutexLocked, mutexStarving, and_one_eq, and_four_eq] at *
    omega

end GoSync

namespace GoSync

/-! ## The starvation invariant over reachable states -/

/-- Invariant: a state with no waiters is not in starvation mode. -/
def StarvInv (s : Nat) : Prop := s >>> mutexWaiterShift = 0 → s &&& mutexStarving = 0

theorem slowCAS_starving_clear (s n : Nat) (stv awk : Bool)
    (hsl : lockSlowNew s stv awk = some n)
    (h4 : s &&& mutexStarving = 0) (h1 : s &&& mutexLocked = 0) :
    n &&& mutexStarving = 0 := by
  have hstv := lockSlowNew_starving_iff s n stv awk hsl
  by_contra hn
  rcases hstv.mp hn with hx | ⟨hx1, hx2⟩
  · exact hx h4
  · exact hx2 h1

theorem mutexStep_preserves_starvInv (s t : Nat) (hstep : MutexStep s t)
    (hinv : StarvInv s) : StarvInv t := by
  unfold StarvInv at *
  cases hstep with
  | fastLock =>
    intro _
    rfl
  | spinWoken _ h1 h2 h3 =>
    intro hw
    exfalso
    apply h3
    simp only [mutexWoken, mutexWaiterShift, or_two_eq, shr3_eq] at *
    omega
  | slowCAS _ _ stv awk hsl =>
    intro hw
    have hwait := lockSlowNew_waiters s t stv awk hsl
    by_cases hc : s &&& (mutexLocked ||| mutexStarving) ≠ 0
    · rw [if_pos hc] at hwait
      exfalso
      simp only [mutexWaiterShift, shr3_eq] at hwait hw
      omega
    · rw [if_neg hc] at hwait
      push_neg at hc
      have hbits : s &&& mutexStarving = 0 ∧ s &&& mutexLocked = 0 := by
        simp only [mutexLocked, mutexStarving, lor_one_four, and_one_eq, and_four_eq,
          and_five_eq] at *
        omega
      exact slowCAS_starving_clear s t stv awk hsl hbits.1 hbits.2
  | handoff _ _ stv hstv hrep =>
    intro hw
    have hf := handoffRepair_some_fields s t stv hstv hrep
    have hnone : ¬(handoffRepair s stv = none) := by
      rw [hrep]
      simp
    rw [handoffRepair_none_iff] at hnone
    push_neg at hnone
    have hlast : s >>> mutexWaiterShift = 1 := by
      have ha := hf.2.2.1
      have hb := hnone.2
      simp only [mutexWaiterShift, shr3_eq] at ha hb hw ⊢
      omega
    exact hf.2.2.2.mpr (Or.inr hlast)
  | unlockClear _ h1 =>
    intro hw
    have hsub := sub_one_fields s h1
    have hm : s - mutexLocked = s - 1 := by
      simp only [mutexLocked]
    rw [hm] at hw ⊢
    rw [hsub.2.2.1]
    apply hinv
    rw [← hsub.2.2.2]
    exact hw
  | unlockWake _ h1 h2 h3 h4 =>
    intro _
    exact (unlockSlow_wake_fields s h3 h4).2.2.1

theorem reachable_starvInv (s : Nat) (h : Reachable s) : StarvInv s := by
  unfold Reachable at h
  induction h with
  | refl =>
    intro _
    rfl
  | tail _ hbc ih =>
    exact mutexStep_preserves_starvInv _ _ hbc ih

theorem mutexStep_no_starve_from_unlocked (s t : Nat) (hstep : MutexStep s t)
    (hl : s &&& mutexLocked = 0) (hst : s &&& mutexStarving = 0) :
    t &&& mutexStarving = 0 := by
  cases hstep with
  | fastLock =>
    rfl
  | spinWoken _ h1 h2 h3 =>
    exfalso
    simp only [mutexLocked, mutexStarving, lor_one_four, and_one_eq, and_four_eq,
      and_five_eq] at *
    omega
  | slowCAS _ _ stv awk hsl =>
    exact slowCAS_starving_clear s t stv awk hsl hst hl
  | handoff _ _ stv hstv hrep =>
    exact absurd hst hstv
  | unlockClear _ h1 =>
    exact absurd hl (by simp [h1])
  | unlockWake _ h1 h2 h3 h4 =>
    exact (unlockSlow_wake_fields s h3 h4).2.2.1

end GoSync

namespace GoSync

/-! ## Claim theorems -/

/-- C6: for every state word whose locked bit is clear (the fresh zero mutex, or a
mutex immediately after a prior Unlock), calling Unlock is fatal: the pre-clear bit
pattern is detected and the call throws "sync: unlock of unlocked mutex" instead of
returning; with the locked bit set it never throws this. -/
theorem C6_unlock_of_unlocked_fatal (s : Nat) (hs : s < two32) :
    (UnlockRun s).1 = UnlockOutcome.fatal "sync: unlock of unlocked mutex" ↔
      s &&& mutexLocked = 0 :=
  unlockRun_fatal_iff s hs

theorem C6_witness :
    (UnlockRun 0).1 = UnlockOutcome.fatal "sync: unlock of unlocked mutex" :=
  (C6_unlock_of_unlocked_fatal 0 (by decide)).mpr (by decide)

/-- C2: starvation-mode hand-off.  Unlock on a starving mutex clears exactly the
locked bit with its single atomic add, modifies nothing else, and signals the
front-of-queue waiter directly (handoff release).  A waiter that wakes and
observes starving set finds locked and woken clear and at least one accounted
waiter (any other combination throws), and completes acquisition with a single
atomic add that sets locked, decrements waiters by one, and clears starving iff
the waiter is not itself in starving condition or it is the last queued waiter;
the resulting state has the locked bit set. -/
theorem C2_starvation_handoff (s o : Nat) (stv : Bool) (hs : s < two32) :
    (s &&& mutexLocked ≠ 0 → s &&& mutexStarving ≠ 0 →
      UnlockRun s = (UnlockOutcome.done (s - 1),
        [MutexEvent.add (-(mutexLocked : Int)) (s - 1), MutexEvent.semrelease true]) ∧
      (s - 1) &&& mutexLocked = 0 ∧ (s - 1) &&& mutexWoken = s &&& mutexWoken ∧
      (s - 1) &&& mutexStarving = s &&& mutexStarving ∧
      (s - 1) >>> mutexWaiterShift = s >>> mutexWaiterShift) ∧
    (o &&& mutexStarving ≠ 0 →
      ((o &&& (mutexLocked ||| mutexWoken) ≠ 0 ∨ o >>> mutexWaiterShift = 0) →
        handoffRepair o stv = none) ∧
      (∀ n, handoffRepair o stv = some n →
        o &&& (mutexLocked ||| mutexWoken) = 0 ∧ o >>> mutexWaiterShift ≠ 0 ∧
        n &&& mutexLocked ≠ 0 ∧ n &&& mutexWoken = 0 ∧
        n >>> mutexWaiterShift = o >>> mutexWaiterShift - 1 ∧
        (n &&& mutexStarving = 0 ↔ (stv = false ∨ o >>> mutexWaiterShift = 1)))) := by
  constructor
  · intro hl hst
    exact ⟨unlockRun_starving s hs hl hst, sub_one_fields s hl⟩
  · intro hsto
    constructor
    · intro hbad
      rw [handoffRepair_none_iff]
      exact hbad
    · intro n hn
      have hnn : ¬(handoffRepair o stv = none) := by
        rw [hn]
        simp
      rw [handoffRepair_none_iff] at hnn
      push_neg at hnn
      exact ⟨hnn.1, hnn.2, handoffRepair_some_fields o n stv hsto hn⟩

theorem C2_witness :
    UnlockRun 13 = (UnlockOutcome.done 12,
      [MutexEvent.add (-(mutexLocked : Int)) 12, MutexEvent.semrelease true]) ∧
    (1 : Nat) &&& mutexLocked ≠ 0 := by
  have h := C2_starvation_handoff 13 12 false (by decide)
  exact ⟨(h.1 (by decide) (by decide)).1, ((h.2 (by decide)).2 1 (by decide)).2.2.1⟩

/-- C3 as stated is refuted by the code: for the reachable observed state
old = 13 (locked, starving, one waiter) the computed candidate new = 21 retains
the locked bit although old is in starvation mode, so "new sets locked iff old
is not in starvation mode" fails as a biconditional on the locked bit. -/
theorem C3_counterexample :
    lockSlowNew 13 false false = some 21 ∧
      ¬(((21 : Nat) &&& mutexLocked ≠ 0) ↔ ((13 : Nat) &&& mutexStarving = 0)) := by
  decide

/-- C3 (amended): Lock's acquisition attempt computes new from the observed old
exactly as the code does: if old is zero a single CAS acquires the lock and Lock
returns; otherwise the candidate new has locked set iff old is not starving or
old already had locked set; waiters is incremented iff old has locked or starving
set; starving is added iff the caller passed the starvation threshold and old has
locked set; woken is cleared iff the caller had set it, and observing woken unset
with awoke set is fatal; after a successful CAS the caller has acquired directly
iff old had neither locked nor starving set. -/
theorem C3_lock_cas_computation (old n : Nat) (stv awk : Bool) :
    (lockFast 0 = some mutexLocked ∧ (old ≠ 0 → lockFast old = none)) ∧
    (lockSlowNew old stv awk = none ↔ (awk = true ∧ old &&& mutexWoken = 0)) ∧
    (lockSlowNew old stv awk = some n →
      ((n &&& mutexLocked ≠ 0 ↔ (old &&& mutexStarving = 0 ∨ old &&& mutexLocked ≠ 0)) ∧
       (n >>> mutexWaiterShift =
         old >>> mutexWaiterShift +
           (if old &&& (mutexLocked ||| mutexStarving) ≠ 0 then 1 else 0)) ∧
       (n &&& mutexStarving ≠ 0 ↔
         (old &&& mutexStarving ≠ 0 ∨ (stv = true ∧ old &&& mutexLocked ≠ 0))) ∧
       (n &&& mutexWoken = (if awk = true then 0 else old &&& mutexWoken)) ∧
       ((lockRound old stv awk false).1 = LockRoundOutcome.acquired n ↔
         old &&& (mutexLocked ||| mutexStarving) = 0))) := by
  refine ⟨⟨rfl, fun h => by simp [lockFast, h]⟩, lockSlowNew_none_iff old stv awk, ?_⟩
  intro h
  refine ⟨lockSlowNew_locked_iff old n stv awk h, lockSlowNew_waiters old n stv awk h,
    lockSlowNew_starving_iff old n stv awk h, lockSlowNew_woken old n stv awk h, ?_⟩
  unfold lockRound
  rw [h]
  split_ifs with hc
  · simp [hc]
  · simp [hc]

theorem C3_witness : (21 : Nat) &&& mutexLocked ≠ 0 :=
  ((C3_lock_cas_computation 13 21 false false).2.2 (by decide)).1.mpr (Or.inr (by decide))

/-- C4: in every reachable state of the packed word (from the zero mutex, under
the atomic transitions of Lock/Unlock), zero waiters implies starving clear; no
transition sets starving from a state whose locked bit is clear; and the hand-off
repair that removes the last waiter also clears starving. -/
theorem C4_no_starving_without_waiters :
    (∀ s, Reachable s → s >>> mutexWaiterShift = 0 → s &&& mutexStarving = 0) ∧
    (∀ s t, MutexStep s t → s &&& mutexLocked = 0 → s &&& mutexStarving = 0 →
      t &&& mutexStarving = 0) ∧
    (∀ o stv n, o &&& mutexStarving ≠ 0 → handoffRepair o stv = some n →
      o >>> mutexWaiterShift = 1 →
      n &&& mutexStarving = 0 ∧ n >>> mutexWaiterShift = 0) := by
  refine ⟨fun s h => reachable_starvInv s h, mutexStep_no_starve_from_unlocked, ?_⟩
  intro o stv n hsto hrep hlast
  have hf := handoffRepair_some_fields o n stv hsto hrep
  refine ⟨hf.2.2.2.mpr (Or.inr hlast), ?_⟩
  rw [hf.2.2.1, hlast]

theorem C4_witness : (mutexLocked : Nat) &&& mutexStarving = 0 :=
  C4_no_starving_without_waiters.1 mutexLocked
    (Relation.ReflTransGen.single MutexStep.fastLock) (by decide)

/-- C5: normal-mode Unlock wake policy.  The wake loop does nothing when the
observed state has zero waiters or any of locked, woken, starving set; otherwise
it CASes in a state with waiters decremented by one and woken set and releases
exactly one waiter with a non-handoff (FIFO) wake; consequently an Unlock that
leaves at least one waiter and no claimed spinner performs exactly one
non-handoff release. -/
theorem C5_normal_unlock_wake_policy (s o : Nat) (hs : s < two32) :
    ((o >>> mutexWaiterShift = 0 ∨
        o &&& (mutexLocked ||| mutexWoken ||| mutexStarving) ≠ 0) →
      unlockSlow o = (o, [])) ∧
    (o >>> mutexWaiterShift ≠ 0 →
      o &&& (mutexLocked ||| mutexWoken ||| mutexStarving) = 0 →
      unlockSlow o = ((o - (1 <<< mutexWaiterShift)) ||| mutexWoken,
        [MutexEvent.cas o ((o - (1 <<< mutexWaiterShift)) ||| mutexWoken) true,
          MutexEvent.semrelease false]) ∧
      ((o - (1 <<< mutexWaiterShift)) ||| mutexWoken) >>> mutexWaiterShift =
        o >>> mutexWaiterShift - 1 ∧
      ((o - (1 <<< mutexWaiterShift)) ||| mutexWoken) &&& mutexWoken ≠ 0) ∧
    (s &&& mutexLocked ≠ 0 → s &&& mutexStarving = 0 →
      (s - 1) >>> mutexWaiterShift ≠ 0 →
      (s - 1) &&& (mutexLocked ||| mutexWoken ||| mutexStarving) = 0 →
      UnlockRun s = (UnlockOutcome.done (((s - 1) - (1 <<< mutexWaiterShift)) ||| mutexWoken),
        [MutexEvent.add (-(mutexLocked : Int)) (s - 1),
          MutexEvent.cas (s - 1) (((s - 1) - (1 <<< mutexWaiterShift)) ||| mutexWoken) true,
          MutexEvent.semrelease false])) := by
  refine ⟨fun h => unlockSlow_noWake o h, ?_, ?_⟩
  · intro h1 h2
    exact ⟨unlockSlow_wake o h1 h2, (unlockSlow_wake_fields o h1 h2).2.2.2,
      (unlockSlow_wake_fields o h1 h2).1⟩
  · intro hl hst hw hm
    rw [unlockRun_normal s hs hl hst, unlockSlow_wake (s - 1) hw hm]

theorem C5_witness :
    UnlockRun 9 = (UnlockOutcome.done 2,
      [MutexEvent.add (-(mutexLocked : Int)) 8, MutexEvent.cas 8 2 true,
        MutexEvent.semrelease false]) := by
  have h := (C5_normal_unlock_wake_policy 9 8 (by decide)).2.2 (by decide) (by decide)
    (by decide) (by decide)
  exact h.trans (by decide)

/-- C7: Store of the nil sentinel is fatal regardless of the cell state; once a
first publish completed with tag T, a later Store whose tag differs from T is
fatal, and a later Store with tag T succeeds writing only the data word, leaving
the tag word unchanged and performing no CAS. -/
theorem C7_store_type_discipline (v : AtomicValue) (x : IfaceWords) (t : Nat) :
    (x.typ = TypePtr.nil → StoreRun v x = (StoreOutcome.panicNil, v, [])) ∧
    (v.typ = TypePtr.ptr t → x.typ ≠ TypePtr.ptr t → x.typ ≠ TypePtr.nil →
      StoreRun v x = (StoreOutcome.panicType, v, [CellEvent.loadTyp (TypePtr.ptr t)])) ∧
    (v.typ = TypePtr.ptr t → x.typ = TypePtr.ptr t →
      StoreRun v x = (StoreOutcome.ok, ⟨TypePtr.ptr t, x.data⟩,
        [CellEvent.loadTyp (TypePtr.ptr t), CellEvent.storeData x.data]) ∧
      (⟨TypePtr.ptr t, x.data⟩ : AtomicValue).typ = v.typ ∧
      (∀ o nw ok, CellEvent.casTyp o nw ok ∉
        [CellEvent.loadTyp (TypePtr.ptr t), CellEvent.storeData x.data])) := by
  refine ⟨?_, ?_, ?_⟩
  · intro hx
    simp [StoreRun, hx]
  · intro hv hx hxn
    simp [StoreRun, hv, Ne.symm hx, hxn]
  · intro hv hx
    refine ⟨by simp [StoreRun, hv, hx], by simp [hv], by simp⟩

theorem C7_witness :
    StoreRun ⟨TypePtr.ptr 5, 0⟩ ⟨TypePtr.ptr 7, 3⟩ =
      (StoreOutcome.panicType, ⟨TypePtr.ptr 5, 0⟩, [CellEvent.loadTyp (TypePtr.ptr 5)]) :=
  (C7_store_type_discipline ⟨TypePtr.ptr 5, 0⟩ ⟨TypePtr.ptr 7, 3⟩ 5).2.1 rfl
    (by decide) (by decide)

/-- C8: Load returns nil iff the atomically read tag is the nil sentinel or the
all-ones in-progress marker (no completed first publish); otherwise it returns
the (tag, data) pair; its trace always reads the tag first and reads the data
only afterwards; Load on the zero cell returns nil, and after one completed
Store(x) on a fresh cell Load returns x. -/
theorem C8_load_semantics (v : AtomicValue) (x : IfaceWords) (t : Nat) :
    ((LoadRun v).1 = none ↔ (v.typ = TypePtr.nil ∨ v.typ = TypePtr.allOnes)) ∧
    (v.typ = TypePtr.ptr t → (LoadRun v).1 = some ⟨v.typ, v.data⟩) ∧
    ((LoadRun v).2 = [CellEvent.loadTyp v.typ] ∨
      (LoadRun v).2 = [CellEvent.loadTyp v.typ, CellEvent.loadData v.data]) ∧
    (LoadRun zeroValue).1 = none ∧
    (x.typ = TypePtr.ptr t → (LoadRun (StoreRun zeroValue x).2.1).1 = some x) := by
  refine ⟨?_, ?_, ?_, by simp [LoadRun, zeroValue], ?_⟩
  · unfold LoadRun
    split_ifs with h
    · simp [h]
    · simp [h]
  · intro hv
    simp [LoadRun, hv]
  · unfold LoadRun
    split_ifs with h
    · simp
    · simp
  · intro hx
    cases x with
    | mk xt xd =>
      simp at hx
      subst hx
      simp [StoreRun, zeroValue, LoadRun]

theorem C8_witness :
    (LoadRun (StoreRun zeroValue ⟨TypePtr.ptr 2, 7⟩).2.1).1 = some ⟨TypePtr.ptr 2, 7⟩ :=
  (C8_load_semantics zeroValue ⟨TypePtr.ptr 2, 7⟩ 2).2.2.2.2 rfl

/-- C9: Lock is the only operation that can suspend the caller.  Unlock, Load and
Store emit no park (semacquire) event and their traces are bounded (at most 3, 2
and 6 primitive events); Store from a quiescent cell (tag not the in-progress
marker) never ends in the spinning-wait outcome; and Lock does park: its slow
path round on a locked mutex emits a semacquire. -/
theorem C9_only_lock_parks (s : Nat) (v : AtomicValue) (x : IfaceWords) :
    (∀ b : Bool, MutexEvent.semacquire b ∉ (UnlockRun s).2) ∧
    (UnlockRun s).2.length ≤ 3 ∧
    CellEvent.park ∉ (LoadRun v).2 ∧ (LoadRun v).2.length ≤ 2 ∧
    CellEvent.park ∉ (StoreRun v x).2.2 ∧ (StoreRun v x).2.2.length ≤ 6 ∧
    (v.typ ≠ TypePtr.allOnes → (StoreRun v x).1 ≠ StoreOutcome.stuck) ∧
    MutexEvent.semacquire false ∈ (lockRound mutexLocked false false false).2 := by
  refine ⟨?_, ?_, ?_, ?_, ?_, ?_, ?_, by decide⟩
  · intro b
    simp only [UnlockRun, unlockSlow]
    split_ifs <;> simp
  · simp only [UnlockRun, unlockSlow]
    split_ifs <;> simp
  · unfold LoadRun
    split_ifs <;> simp
  · unfold LoadRun
    split_ifs <;> simp
  · unfold StoreRun
    split_ifs with h1
    · simp
    · cases hv : v.typ with
      | nil => simp
      | allOnes => simp
      | ptr t =>
        by_cases hxt : TypePtr.ptr t ≠ x.typ
        · simp [hxt]
        · simp only [if_neg hxt]
          simp
  · unfold StoreRun
    split_ifs with h1
    · simp
    · cases hv : v.typ with
      | nil => simp
      | allOnes => simp
      | ptr t =>
        by_cases hxt : TypePtr.ptr t ≠ x.typ
        · simp [hxt]
        · simp only [if_neg hxt]
          simp
  · intro hall
    unfold StoreRun
    split_ifs with h1
    · simp
    · cases hv : v.typ with
      | nil => simp
      | allOnes => exact absurd hv hall
      | ptr t =>
        by_cases hxt : TypePtr.ptr t ≠ x.typ
        · simp [hxt]
        · simp only [if_neg hxt]
          simp

theorem C9_witness :
    (StoreRun ⟨TypePtr.nil, 0⟩ ⟨TypePtr.ptr 1, 2⟩).1 ≠ StoreOutcome.stuck :=
  (C9_only_lock_parks 3 ⟨TypePtr.nil, 0⟩ ⟨TypePtr.ptr 1, 2⟩).2.2.2.2.2.2.1 (by decide)

/-- C10: whenever Store ends in a fatal error (nil value, or a tag differing from
the published one), it has written neither word of the cell: the cell after the
call equals the cell before it and the trace contains no write event, because
both error checks precede every store the call could perform. -/
theorem C10_store_fatal_writes_nothing (v : AtomicValue) (x : IfaceWords) :
    ((StoreRun v x).1 = StoreOutcome.panicNil ∨ (StoreRun v x).1 = StoreOutcome.panicType) →
      (StoreRun v x).2.1 = v ∧ ∀ e ∈ (StoreRun v x).2.2, e.isWrite = false := by
  intro houtcome
  unfold StoreRun at *
  split_ifs at * with h1
  · simp [CellEvent.isWrite]
  · cases hv : v.typ with
    | nil =>
      rw [hv] at houtcome
      simp at houtcome
    | allOnes =>
      rw [hv] at houtcome
      simp at houtcome
    | ptr t =>
      rw [hv] at houtcome
      by_cases hxt : TypePtr.ptr t ≠ x.typ
      · simp [hxt, CellEvent.isWrite]
      · simp only [if_neg hxt] at houtcome
        simp at houtcome

theorem C10_witness :
    (StoreRun ⟨TypePtr.ptr 1, 0⟩ ⟨TypePtr.nil, 5⟩).2.1 = ⟨TypePtr.ptr 1, 0⟩ :=
  (C10_store_fatal_writes_nothing ⟨TypePtr.ptr 1, 0⟩ ⟨TypePtr.nil, 5⟩
    (Or.inl (by decide))).1

end GoSync
